import Mathlib

/-!
Verification of example.cpp (Prolix coding style example)

A shallow embedding of the translation unit src/example/example.cpp.

* The C++ type int is embedded as CInt: a mathematical integer together with
  the proof that it lies in the 32 bit signed range. Arithmetic on CInt
  reduces its result modulo 2^32 into that range (CInt.ofInt). Signed overflow
  is undefined behaviour in C++; wrapping around is what the usual targets do,
  and every statement below that depends on age++ not overflowing says so.
* The standard output stream is embedded as the list of lines written so far;
  the statement std::cout << s << std::endl appends the line s (cout_endl).
* Member functions take the object (this) and the output stream explicitly
  and return the updated object and stream.
-/

/-! ## Machine integers -/

/-- Smallest value of the C++ type int (32 bits). -/
def INT_MIN : Int := -2147483648

/-- Largest value of the C++ type int (32 bits). -/
def INT_MAX : Int := 2147483647

/-- Reduction of a mathematical integer into the two-complement range of int. -/
def wrapInt (x : Int) : Int := (x + 2147483648) % 4294967296 - 2147483648

/-- The C++ type int: an integer within the 32 bit signed range. -/
structure CInt where
  val : Int
  lo : INT_MIN ≤ val
  hi : val ≤ INT_MAX

namespace CInt

instance : DecidableEq CInt := fun a b =>
  if h : a.val = b.val then
    isTrue (by cases a; cases b; cases h; rfl)
  else
    isFalse (fun e => h (congrArg CInt.val e))

/-- Conversion of an arithmetic result to int (wraps around on overflow). -/
def ofInt (x : Int) : CInt :=
  ⟨wrapInt x, by unfold wrapInt INT_MIN; omega, by unfold wrapInt INT_MAX; omega⟩

instance : OfNat CInt n := ⟨ofInt (Int.ofNat n)⟩

instance : Add CInt := ⟨fun a b => ofInt (a.val + b.val)⟩
instance : Sub CInt := ⟨fun a b => ofInt (a.val - b.val)⟩
instance : Mul CInt := ⟨fun a b => ofInt (a.val * b.val)⟩
instance : LT CInt := ⟨fun a b => a.val < b.val⟩
instance : LE CInt := ⟨fun a b => a.val ≤ b.val⟩

instance (a b : CInt) : Decidable (a < b) := inferInstanceAs (Decidable (a.val < b.val))
instance (a b : CInt) : Decidable (a ≤ b) := inferInstanceAs (Decidable (a.val ≤ b.val))

end CInt

/-! ## Standard output -/

/-- The lines written to std::cout so far, oldest first. -/
abbrev Stdout := List String

/-- The statement std::cout << s << std::endl: writes s and ends the line. -/
def cout_endl (out : Stdout) (s : String) : Stdout := out ++ [s]

/-! ## namespace western -/

namespace western

def COWBOY_DEFAULT_AGE : CInt := 45
def COWBOY_DEFAULT_AVAILABLE_BULLETS : CInt := 2
def COWBOY_SHOOT_THRESHOLD_EXAMPLE : CInt := 10

/-- The data members of class Cowboy. -/
structure Cowboy where
  age : CInt
  available_bullets : CInt
deriving DecidableEq

namespace Cowboy

/-- Cowboy::Cowboy (): the default constructor. -/
def Cowboy_default (out : Stdout) : Cowboy × Stdout :=
  ({ age := COWBOY_DEFAULT_AGE,
     available_bullets := COWBOY_DEFAULT_AVAILABLE_BULLETS },
   cout_endl out "I am alive!")

/-- Cowboy::Cowboy (const int available_bullets). -/
def Cowboy_int (available_bullets : CInt) (out : Stdout) : Cowboy × Stdout :=
  ({ age := COWBOY_DEFAULT_AGE,
     available_bullets := available_bullets },
   cout_endl out "Howdy!")

/-- Cowboy::~Cowboy (): the destructor. -/
def destructor (_this : Cowboy) (out : Stdout) : Stdout :=
  cout_endl out "RIP"

/-- Cowboy::get_age () const. -/
def get_age (this : Cowboy) : CInt := this.age

/-- The for loop of print_bangs, entered with loop variable i:
for (; i < number_of_bangs_to_print; ++i) std::cout << "Bang!" << std::endl; -/
def print_bangs_loop (number_of_bangs_to_print i : CInt) (out : Stdout) : Stdout :=
  if i < number_of_bangs_to_print then
    print_bangs_loop number_of_bangs_to_print (i + 1) (cout_endl out "Bang!")
  else
    out
termination_by (number_of_bangs_to_print.val - i.val).toNat
decreasing_by
  rename_i h
  have hlt : i.val < number_of_bangs_to_print.val := h
  have hn := number_of_bangs_to_print.hi
  have hi := i.lo
  have h1 : (i + 1).val = wrapInt (i.val + 1) := rfl
  rw [h1]
  unfold wrapInt
  unfold INT_MAX at hn
  unfold INT_MIN at hi
  omega

/-- Cowboy::print_bangs (const int &number_of_bangs_to_print) const. -/
def print_bangs (this : Cowboy) (number_of_bangs_to_print : CInt) (out : Stdout) :
    Cowboy × Stdout :=
  (this, print_bangs_loop number_of_bangs_to_print 0 out)

/-- The initialiser of the local constant arbitrary_number in shoot. -/
def arbitrary_number : CInt := 5 + (7 * 3)

/-- Cowboy::shoot (const std::string target_name). -/
def shoot (this : Cowboy) (_target_name : String) (out : Stdout) : Cowboy × Stdout :=
  let this := { this with age := this.age + 1 }
  let (this, out) := print_bangs this arbitrary_number out
  if arbitrary_number > COWBOY_SHOOT_THRESHOLD_EXAMPLE then
    (this, out)
  else
    if this.age = COWBOY_DEFAULT_AGE then
      ({ this with age := this.age - 1 }, out)
    else
      ({ this with age := this.age + 1 }, out)

end Cowboy

/-- The free function some_very_long_method with its ten int parameters. -/
def some_very_long_method
    (_param1 _param2 _param3 _param4 _param5 : CInt)
    (_param6 _param7 _param8 _param9 _param10 : CInt)
    (out : Stdout) : Stdout :=
  cout_endl out "So long..."

end western

open western

/-- The local objects of main that are alive at its return statement. -/
structure MainLocals where
  amy : Cowboy
  angus : Cowboy
deriving DecidableEq

/-- The body of main up to and including the evaluation of return 0: yields
the local objects, the output so far and the returned value. -/
def main_body (out : Stdout) : MainLocals × Stdout × CInt :=
  let (amy, out) := Cowboy.Cowboy_default out
  let (angus, out) := Cowboy.Cowboy_int 2 out
  -- current_cowboy = &amy, so the call below acts on amy
  let (amy, out) := Cowboy.shoot amy "yourself" out
  ({ amy := amy, angus := angus }, out, 0)

/-- The objects destroyed when main returns, in order of destruction: automatic
objects are destroyed in the reverse order of their construction. -/
def main_scope_exit (locals : MainLocals) : List Cowboy :=
  [locals.angus, locals.amy]

/-- The function main (named main_function here, since the name main is
reserved): exit code and the complete output. -/
def main_function (out : Stdout) : CInt × Stdout :=
  let (locals, out, code) := main_body out
  let out := (main_scope_exit locals).foldl (fun o c => Cowboy.destructor c o) out
  (code, out)


/-! ## Scenarios used by the statements below -/

namespace western

/-- The behaviour section 4.1 of the specification gives for shoot once the
unreachable switch is left out: increment age, then call print_bangs (26). -/
def shoot_without_switch (this : Cowboy) (_target_name : String) (out : Stdout) :
    Cowboy × Stdout :=
  let this := { this with age := this.age + 1 }
  Cowboy.print_bangs this 26 out

/-- The call sequence c.shoot (t1); c.shoot (t2); ... for a list of target
names, threading the object and the output stream through the calls. -/
def shoot_all (this : Cowboy) (target_names : List String) (out : Stdout) :
    Cowboy × Stdout :=
  target_names.foldl (fun s t => Cowboy.shoot s.1 t s.2) (this, out)

end western

/-! ## Auxiliary lemmas -/

theorem wrapInt_of_inRange (x : Int) (hlo : INT_MIN ≤ x) (hhi : x ≤ INT_MAX) :
    wrapInt x = x := by
  unfold wrapInt
  unfold INT_MIN at hlo
  unfold INT_MAX at hhi
  omega

namespace CInt

theorem ext_val {a b : CInt} (h : a.val = b.val) : a = b := by
  cases a
  cases b
  cases h
  rfl

theorem lt_def (a b : CInt) : (a < b) = (a.val < b.val) := rfl

theorem val_add (a b : CInt) : (a + b).val = wrapInt (a.val + b.val) := rfl

theorem val_one : (1 : CInt).val = 1 := by decide

theorem val_zero : (0 : CInt).val = 0 := by decide

/-- Incrementing an int below INT_MAX does not wrap around. -/
theorem val_succ (a : CInt) (h : a.val < INT_MAX) : (a + 1).val = a.val + 1 := by
  rw [val_add, val_one]
  apply wrapInt_of_inRange
  · have := a.lo
    unfold INT_MIN at *
    omega
  · omega

end CInt

namespace western

theorem arbitrary_number_val : Cowboy.arbitrary_number.val = 26 := by decide

theorem default_age_val : COWBOY_DEFAULT_AGE.val = 45 := by decide

theorem default_bullets_val : COWBOY_DEFAULT_AVAILABLE_BULLETS.val = 2 := by decide

theorem succ_44_val : ((44 : CInt) + 1).val = 45 := by decide

/-- The loop entered at i writes one line per remaining iteration. -/
theorem print_bangs_loop_eq (n : CInt) :
    ∀ (k : Nat) (i : CInt) (out : Stdout), (n.val - i.val).toNat = k →
      Cowboy.print_bangs_loop n i out = out ++ List.replicate k "Bang!" := by
  intro k
  induction k with
  | zero =>
    intro i out hk
    rw [Cowboy.print_bangs_loop]
    have hnot : ¬ i < n := by
      rw [CInt.lt_def]
      omega
    simp [hnot]
  | succ k ih =>
    intro i out hk
    rw [Cowboy.print_bangs_loop]
    have hlt : i < n := by
      rw [CInt.lt_def]
      omega
    have hlt2 : i.val < n.val := hlt
    have hsucc : (i + 1).val = i.val + 1 :=
      CInt.val_succ i (lt_of_lt_of_le hlt2 n.hi)
    have hk2 : (n.val - (i + 1).val).toNat = k := by
      rw [hsucc]
      omega
    rw [if_pos hlt, ih (i + 1) (cout_endl out "Bang!") hk2]
    simp [cout_endl, List.replicate_succ]

theorem print_bangs_snd (this : Cowboy) (n : CInt) (out : Stdout) :
    (Cowboy.print_bangs this n out).2 = out ++ List.replicate n.val.toNat "Bang!" := by
  unfold Cowboy.print_bangs
  apply print_bangs_loop_eq
  rw [CInt.val_zero]
  simp

theorem shoot_guard : Cowboy.arbitrary_number > COWBOY_SHOOT_THRESHOLD_EXAMPLE := by
  decide

/-- Closed form of shoot. -/
theorem shoot_eq (this : Cowboy) (target_name : String) (out : Stdout) :
    Cowboy.shoot this target_name out =
      ({ this with age := this.age + 1 }, out ++ List.replicate 26 "Bang!") := by
  unfold Cowboy.shoot
  simp only [if_pos shoot_guard]
  apply Prod.ext
  · rfl
  · simp only []
    rw [print_bangs_snd, arbitrary_number_val]
    rfl

theorem shoot_all_cons (this : Cowboy) (t : String) (ts : List String) (out : Stdout) :
    shoot_all this (t :: ts) out =
      shoot_all (Cowboy.shoot this t out).1 ts (Cowboy.shoot this t out).2 := rfl

/-- Closed form of a sequence of shoot calls that does not overflow age. -/
theorem shoot_all_eq (target_names : List String) :
    ∀ (this : Cowboy) (out : Stdout),
      this.age.val + target_names.length ≤ INT_MAX →
      (shoot_all this target_names out).1.age.val = this.age.val + target_names.length ∧
        (shoot_all this target_names out).1.available_bullets = this.available_bullets ∧
        (shoot_all this target_names out).2 =
          out ++ List.replicate (26 * target_names.length) "Bang!" := by
  induction target_names with
  | nil =>
    intro this out _
    simp [shoot_all]
  | cons t ts ih =>
    intro this out h
    simp only [List.length_cons, Nat.cast_add, Nat.cast_one] at h
    have hage : (this.age + 1).val = this.age.val + 1 :=
      CInt.val_succ this.age (by omega)
    rw [shoot_all_cons, shoot_eq]
    have h2 : (this.age + 1).val + (ts.length : Int) ≤ INT_MAX := by
      rw [hage]
      omega
    obtain ⟨h3, h4, h5⟩ := ih { this with age := this.age + 1 }
      (out ++ List.replicate 26 "Bang!") h2
    refine ⟨?_, ?_, ?_⟩
    · rw [h3]
      simp only [List.length_cons, Nat.cast_add, Nat.cast_one]
      rw [hage]
      omega
    · rw [h4]
    · rw [h5, List.append_assoc, List.append_replicate_replicate]
      congr 2
      simp only [List.length_cons]
      omega

theorem main_body_eq (out : Stdout) :
    main_body out =
      ({ amy := { age := COWBOY_DEFAULT_AGE + 1,
                  available_bullets := COWBOY_DEFAULT_AVAILABLE_BULLETS },
         angus := { age := COWBOY_DEFAULT_AGE, available_bullets := 2 } },
       out ++ ["I am alive!"] ++ ["Howdy!"] ++ List.replicate 26 "Bang!", 0) := by
  unfold main_body
  simp only [Cowboy.Cowboy_default, Cowboy.Cowboy_int, shoot_eq, cout_endl]

theorem main_function_eq (out : Stdout) :
    main_function out =
      (0, out ++ ["I am alive!"] ++ ["Howdy!"] ++ List.replicate 26 "Bang!"
            ++ ["RIP"] ++ ["RIP"]) := by
  unfold main_function
  rw [main_body_eq]
  rfl

theorem default_age_succ_val : (COWBOY_DEFAULT_AGE + 1).val = 46 := by decide

end western

/-! ## The claims -/

namespace western

/-- Claim C1: for every Cowboy whose age is below INT_MAX and every target
name, one call to shoot leaves age equal to its previous value plus exactly 1,
and the result of the call is the same for any other target name. -/
theorem C1_shoot_increments_age (this : Cowboy) (target_name other_name : String)
    (out : Stdout) (h : this.age.val < INT_MAX) :
    (Cowboy.shoot this target_name out).1.age.val = this.age.val + 1 ∧
      Cowboy.shoot this other_name out = Cowboy.shoot this target_name out := by
  constructor
  · rw [shoot_eq]
    exact CInt.val_succ this.age h
  · rw [shoot_eq, shoot_eq]

/-- Witness of claim C1: a freshly built cowboy (age 45) shooting at the empty
name and at a name with non-ASCII letters. -/
theorem C1_shoot_increments_age_witness :
    (Cowboy.mk 45 2).age.val < INT_MAX ∧
      ((Cowboy.shoot (Cowboy.mk 45 2) "" []).1.age.val = (Cowboy.mk 45 2).age.val + 1 ∧
        Cowboy.shoot (Cowboy.mk 45 2) "Zoë Müller" [] = Cowboy.shoot (Cowboy.mk 45 2) "" []) :=
  ⟨by decide, C1_shoot_increments_age (Cowboy.mk 45 2) "" "Zoë Müller" [] (by decide)⟩

/-- Claim C2: for every Cowboy and every target name, one call to shoot appends
to the output exactly 26 lines, each equal to Bang!, and nothing else; 26 is
the value of the local constant arbitrary_number, that is 5 + (7 * 3). -/
theorem C2_shoot_prints_26_bangs (this : Cowboy) (target_name : String) (out : Stdout) :
    (Cowboy.shoot this target_name out).2 = out ++ List.replicate 26 "Bang!" ∧
      (Cowboy.shoot this target_name out).2.length = out.length + 26 ∧
      Cowboy.arbitrary_number.val = 26 ∧
      Cowboy.arbitrary_number.val = 5 + (7 * 3) := by
  refine ⟨?_, ?_, ?_, ?_⟩
  · rw [shoot_eq]
  · rw [shoot_eq]
    simp
  · exact arbitrary_number_val
  · exact arbitrary_number_val

/-- Claim C3: for every int n, print_bangs (n) writes exactly n lines Bang! when
n > 0 and no line when n <= 0, so max (n, 0) lines in all; print_bangs is a
total function, so its loop terminates for every n. -/
theorem C3_print_bangs_lines (this : Cowboy) (n : CInt) (out : Stdout) :
    (Cowboy.print_bangs this n out).2 =
        (if 0 < n.val then out ++ List.replicate n.val.toNat "Bang!" else out) ∧
      (Cowboy.print_bangs this n out).2 = out ++ List.replicate (max n.val 0).toNat "Bang!" ∧
      (((Cowboy.print_bangs this n out).2.length : Int) = out.length + max n.val 0) := by
  have hmax : (max n.val 0).toNat = n.val.toNat := by
    rcases le_total n.val 0 with h | h
    · rw [max_eq_right h]
      omega
    · rw [max_eq_left h]
  refine ⟨?_, ?_, ?_⟩
  · rw [print_bangs_snd]
    by_cases h : 0 < n.val
    · rw [if_pos h]
    · rw [if_neg h]
      have h0 : n.val.toNat = 0 := by omega
      rw [h0]
      simp
  · rw [print_bangs_snd, hmax]
  · rw [print_bangs_snd]
    simp only [List.length_append, List.length_replicate]
    omega

/-- Claim C4: for every int b (zero and negative values included), the
constructor Cowboy (b) yields available_bullets == b and age == 45 (get_age
returns 45) and writes exactly the one line Howdy!; it is total, so no b is
rejected. -/
theorem C4_constructor_with_bullets (b : CInt) (out : Stdout) :
    (Cowboy.Cowboy_int b out).1.available_bullets = b ∧
      (Cowboy.Cowboy_int b out).1.age.val = 45 ∧
      (Cowboy.get_age (Cowboy.Cowboy_int b out).1).val = 45 ∧
      (Cowboy.Cowboy_int b out).2 = out ++ ["Howdy!"] := by
  exact ⟨rfl, default_age_val, default_age_val, rfl⟩

/-- Claim C5: the default constructor yields age == 45 (get_age returns 45) and
available_bullets == 2 and writes exactly the one line I am alive!; its state is
the state produced by the constructor Cowboy (2). -/
theorem C5_default_constructor (out out2 : Stdout) :
    (Cowboy.Cowboy_default out).1.age.val = 45 ∧
      (Cowboy.get_age (Cowboy.Cowboy_default out).1).val = 45 ∧
      (Cowboy.Cowboy_default out).1.available_bullets.val = 2 ∧
      (Cowboy.Cowboy_default out).2 = out ++ ["I am alive!"] ∧
      (Cowboy.Cowboy_default out).1 = (Cowboy.Cowboy_int 2 out2).1 := by
  exact ⟨default_age_val, default_age_val, default_bullets_val, rfl, rfl⟩

/-- Claim C7: for every Cowboy and every argument, shoot leaves
available_bullets unchanged and print_bangs leaves the whole object (age and
available_bullets) unchanged; together with get_age and the destructor, which
return no object, only the constructors write available_bullets. -/
theorem C7_available_bullets_frame (this : Cowboy) (target_name : String) (n : CInt)
    (out : Stdout) :
    (Cowboy.shoot this target_name out).1.available_bullets = this.available_bullets ∧
      (Cowboy.print_bangs this n out).1.age = this.age ∧
      (Cowboy.print_bangs this n out).1.available_bullets = this.available_bullets := by
  refine ⟨?_, rfl, rfl⟩
  rw [shoot_eq]

/-- Claim C8: the guard arbitrary_number > COWBOY_SHOOT_THRESHOLD_EXAMPLE
(26 > 10) holds, so shoot always returns early: for every Cowboy, target name
and output it equals the function that only increments age and calls
print_bangs (26); a cowboy of age 44 ends at 45 and is not decremented to 44. -/
theorem C8_shoot_switch_unreachable (this : Cowboy) (target_name : String) (out : Stdout)
    (bullets : CInt) :
    Cowboy.arbitrary_number > COWBOY_SHOOT_THRESHOLD_EXAMPLE ∧
      Cowboy.arbitrary_number.val = 26 ∧ COWBOY_SHOOT_THRESHOLD_EXAMPLE.val = 10 ∧
      Cowboy.shoot this target_name out = shoot_without_switch this target_name out ∧
      (Cowboy.shoot (Cowboy.mk 44 bullets) target_name out).1.age.val = 45 := by
  refine ⟨shoot_guard, arbitrary_number_val, by decide, ?_, ?_⟩
  · rw [shoot_eq]
    unfold shoot_without_switch
    apply Prod.ext
    · rfl
    · simp only []
      rw [print_bangs_snd]
      rfl
  · rw [shoot_eq]
    exact succ_44_val

end western

/-- Claim C6: the fixed main writes, in this order and with nothing else, the
lines I am alive!, Howdy!, 26 times Bang!, RIP, RIP (30 lines in total) and
returns 0; at its return statement amy has age 46 and angus age 45, and angus
is destroyed before amy. -/
theorem C6_main_output :
    (main_function []).2 =
        ["I am alive!", "Howdy!"] ++ List.replicate 26 "Bang!" ++ ["RIP", "RIP"] ∧
      (main_function []).2.length = 30 ∧
      (main_function []).1.val = 0 ∧
      (main_body []).1.amy.age.val = 46 ∧
      (main_body []).1.angus.age.val = 45 ∧
      (main_body []).2.2.val = 0 ∧
      main_scope_exit (main_body []).1 = [(main_body []).1.angus, (main_body []).1.amy] ∧
      (main_function []).2 =
        ((main_body []).1.amy.destructor
          ((main_body []).1.angus.destructor (main_body []).2.1)) := by
  rw [western.main_function_eq, western.main_body_eq]
  refine ⟨?_, ?_, ?_, ?_, ?_, ?_, ?_, ?_⟩
  · simp
  · simp
  · exact CInt.val_zero
  · exact western.default_age_succ_val
  · exact western.default_age_val
  · exact CInt.val_zero
  · rfl
  · rfl

/-- Claim C9: for every choice of its ten int arguments some_very_long_method
writes exactly the one line So long... and nothing else, so any two argument
tuples give the same output; main does not call it, and the output of main
has no line So long.... -/
theorem C9_some_very_long_method
    (p1 p2 p3 p4 p5 p6 p7 p8 p9 p10 q1 q2 q3 q4 q5 q6 q7 q8 q9 q10 : CInt)
    (out : Stdout) :
    some_very_long_method p1 p2 p3 p4 p5 p6 p7 p8 p9 p10 out = out ++ ["So long..."] ∧
      some_very_long_method p1 p2 p3 p4 p5 p6 p7 p8 p9 p10 out =
        some_very_long_method q1 q2 q3 q4 q5 q6 q7 q8 q9 q10 out ∧
      "So long..." ∉ (main_function []).2 := by
  refine ⟨rfl, rfl, ?_⟩
  rw [western.main_function_eq]
  simp [List.mem_replicate]

/-- Claim C10: for every list of k target names with 45 + k <= INT_MAX and
either constructor, calling shoot once per name on the freshly built Cowboy
gives get_age () == 45 + k and the constructor line followed by 26 * k lines
Bang!; hence age >= 45 in every state so reached, and age == 45 exactly when
shoot was never called. -/
theorem C10_age_after_shoots (target_names : List String) (b : CInt) (out : Stdout)
    (h : 45 + (target_names.length : Int) ≤ INT_MAX) :
    ((Cowboy.get_age
          (shoot_all (Cowboy.Cowboy_default out).1 target_names
            (Cowboy.Cowboy_default out).2).1).val = 45 + target_names.length ∧
        (shoot_all (Cowboy.Cowboy_default out).1 target_names
            (Cowboy.Cowboy_default out).2).2 =
          out ++ ["I am alive!"] ++ List.replicate (26 * target_names.length) "Bang!" ∧
        45 ≤ (shoot_all (Cowboy.Cowboy_default out).1 target_names
            (Cowboy.Cowboy_default out).2).1.age.val ∧
        ((shoot_all (Cowboy.Cowboy_default out).1 target_names
            (Cowboy.Cowboy_default out).2).1.age.val = 45 ↔ target_names = [])) ∧
      ((Cowboy.get_age
          (shoot_all (Cowboy.Cowboy_int b out).1 target_names
            (Cowboy.Cowboy_int b out).2).1).val = 45 + target_names.length ∧
        (shoot_all (Cowboy.Cowboy_int b out).1 target_names
            (Cowboy.Cowboy_int b out).2).2 =
          out ++ ["Howdy!"] ++ List.replicate (26 * target_names.length) "Bang!" ∧
        45 ≤ (shoot_all (Cowboy.Cowboy_int b out).1 target_names
            (Cowboy.Cowboy_int b out).2).1.age.val ∧
        ((shoot_all (Cowboy.Cowboy_int b out).1 target_names
            (Cowboy.Cowboy_int b out).2).1.age.val = 45 ↔ target_names = [])) := by
  have key : ∀ (c : Cowboy) (o : Stdout), c.age.val = 45 →
      (Cowboy.get_age (shoot_all c target_names o).1).val = 45 + target_names.length ∧
        (shoot_all c target_names o).2 =
          o ++ List.replicate (26 * target_names.length) "Bang!" ∧
        45 ≤ (shoot_all c target_names o).1.age.val ∧
        ((shoot_all c target_names o).1.age.val = 45 ↔ target_names = []) := by
    intro c o hc
    obtain ⟨h1, _, h3⟩ := western.shoot_all_eq target_names c o (by rw [hc]; exact h)
    rw [hc] at h1
    refine ⟨h1, h3, ?_, ?_⟩
    · rw [h1]
      omega
    · rw [h1]
      constructor
      · intro h4
        apply List.eq_nil_of_length_eq_zero
        omega
      · intro h4
        rw [h4]
        simp
  exact ⟨key _ _ western.default_age_val, key _ _ western.default_age_val⟩

/-- Witness of claim C10: three shots at three different names after either
constructor, the second constructor called with a negative bullet count. -/
theorem C10_age_after_shoots_witness :
    45 + ((["yourself", "", "Zoë"] : List String).length : Int) ≤ INT_MAX ∧
      (((Cowboy.get_age
          (shoot_all (Cowboy.Cowboy_default []).1 ["yourself", "", "Zoë"]
            (Cowboy.Cowboy_default []).2).1).val
            = 45 + (["yourself", "", "Zoë"] : List String).length ∧
        (shoot_all (Cowboy.Cowboy_default []).1 ["yourself", "", "Zoë"]
            (Cowboy.Cowboy_default []).2).2 =
          [] ++ ["I am alive!"] ++
            List.replicate (26 * (["yourself", "", "Zoë"] : List String).length) "Bang!" ∧
        45 ≤ (shoot_all (Cowboy.Cowboy_default []).1 ["yourself", "", "Zoë"]
            (Cowboy.Cowboy_default []).2).1.age.val ∧
        ((shoot_all (Cowboy.Cowboy_default []).1 ["yourself", "", "Zoë"]
            (Cowboy.Cowboy_default []).2).1.age.val = 45 ↔
          (["yourself", "", "Zoë"] : List String) = [])) ∧
      ((Cowboy.get_age
          (shoot_all (Cowboy.Cowboy_int (CInt.ofInt (-1)) []).1 ["yourself", "", "Zoë"]
            (Cowboy.Cowboy_int (CInt.ofInt (-1)) []).2).1).val
            = 45 + (["yourself", "", "Zoë"] : List String).length ∧
        (shoot_all (Cowboy.Cowboy_int (CInt.ofInt (-1)) []).1 ["yourself", "", "Zoë"]
            (Cowboy.Cowboy_int (CInt.ofInt (-1)) []).2).2 =
          [] ++ ["Howdy!"] ++
            List.replicate (26 * (["yourself", "", "Zoë"] : List String).length) "Bang!" ∧
        45 ≤ (shoot_all (Cowboy.Cowboy_int (CInt.ofInt (-1)) []).1 ["yourself", "", "Zoë"]
            (Cowboy.Cowboy_int (CInt.ofInt (-1)) []).2).1.age.val ∧
        ((shoot_all (Cowboy.Cowboy_int (CInt.ofInt (-1)) []).1 ["yourself", "", "Zoë"]
            (Cowboy.Cowboy_int (CInt.ofInt (-1)) []).2).1.age.val = 45 ↔
          (["yourself", "", "Zoë"] : List String) = []))) :=
  ⟨by decide,
    C10_age_after_shoots ["yourself", "", "Zoë"] (CInt.ofInt (-1)) [] (by decide)⟩
